import Mathlib

/-
Verification development for the activity sign-up front end (src/static/app.js).
The DOM tree built by the script is embedded as Lean data structures, and each
event handler as a pure function from its observable inputs (the transport
outcome, the confirmation answer, the prior message state) to the resulting
UI state plus an effect record (remote calls issued, catalog reloads
triggered, hide timers armed).
-/

/-- One activity as delivered by GET /activities: a value of the JSON mapping,
with fields description, schedule, max_participants, participants. -/
structure Activity where
  description : String
  schedule : String
  max_participants : Nat
  participants : List String
deriving DecidableEq, Repr

/-- spotsLeft, computed in fetchActivities as
details.max_participants - details.participants.length; JavaScript subtraction
on integers, so the result may be negative (embedded as Int). -/
def spotsLeft (details : Activity) : Int :=
  (details.max_participants : Int) - (details.participants.length : Int)

/-- The delete button created for one participant row: class "delete-btn",
text "Delete", and the data-activity / data-email attributes. -/
structure DeleteBtn where
  className : String
  textLabel : String
  dataActivity : String
  dataEmail : String
deriving DecidableEq, Repr

/-- One li of the participants list: a span holding the email and the
delete button. -/
structure ParticipantRow where
  email : String
  button : DeleteBtn
deriving DecidableEq, Repr

/-- The participants block of a card: either the "no participants"
placeholder paragraph, or the ul of participant rows. -/
inductive ParticipantsArea where
  | placeholder (text : String)
  | rows (items : List ParticipantRow)
deriving DecidableEq, Repr

/-- One activity card as assembled by the Object.entries loop: title (h4),
description (p), the text node after the Schedule label, the text node after
the Availability label, and the participants block. -/
structure ActivityCard where
  className : String
  title : String
  description : String
  scheduleText : String
  availabilityText : String
  participantsArea : ParticipantsArea
deriving DecidableEq, Repr

/-- The fixed placeholder paragraph text used when an activity has no
participants. -/
def noParticipantsText : String := "No participants yet - be the first to sign up!"

/-- The card built for one (name, details) entry, field by field from the
loop body of fetchActivities. -/
def renderCard (name : String) (details : Activity) : ActivityCard :=
  { className := "activity-card"
  , title := name
  , description := details.description
  , scheduleText := " " ++ details.schedule
  , availabilityText := " " ++ toString (spotsLeft details) ++ " spots left"
  , participantsArea :=
      if details.participants.length > 0 then
        ParticipantsArea.rows (details.participants.map (fun email =>
          { email := email
          , button :=
              { className := "delete-btn"
              , textLabel := "Delete"
              , dataActivity := name
              , dataEmail := email } }))
      else
        ParticipantsArea.placeholder noParticipantsText }

/-- The delete buttons contained in a card, in document order. -/
def ActivityCard.deleteButtons (c : ActivityCard) : List DeleteBtn :=
  match c.participantsArea with
  | ParticipantsArea.placeholder _ => []
  | ParticipantsArea.rows items => items.map ParticipantRow.button

/-- An option element of the select control. -/
structure OptionEl where
  value : String
  textContent : String
deriving DecidableEq, Repr

/-- The option appended for one activity: value and textContent both set to
the activity name. -/
def mkOption (name : String) : OptionEl :=
  { value := name, textContent := name }

/-- The cards produced for a full catalog, in the iteration order of
Object.entries (insertion order of the mapping as received). -/
def renderEntries (es : List (String × Activity)) : List ActivityCard :=
  es.map (fun e => renderCard e.1 e.2)

/-- Content of the activities-list container: the initial loading markup, a
rendered card list, or the innerHTML string assigned in the catch block. -/
inductive ListAreaContent where
  | loadingNotice
  | cards (cs : List ActivityCard)
  | failureNotice (html : String)
deriving DecidableEq, Repr

/-- The innerHTML assigned to the list container when fetchActivities
catches an error. -/
def failureHtml : String := "<p>Failed to load activities. Please try again later.</p>"

/-- UI state touched by fetchActivities: the list container, the select
control options (index 0 is the placeholder the while loop keeps), and a
count of console.error records. -/
structure CatalogUI where
  listArea : ListAreaContent
  options : List OptionEl
  consoleErrors : Nat
deriving DecidableEq, Repr

/-- Outcome of one catalog fetch as observed by the await chain of
fetchActivities. `thrown` covers a rejected fetch (network failure) and a
body that response.json() fails to parse: both reach the catch block with
the same effect. `response ok es` is a response whose body parsed as a JSON
object of activities; `ok` is response.ok, which fetchActivities never
reads. -/
inductive CatalogFetchOutcome where
  | thrown
  | response (ok : Bool) (entries : List (String × Activity))
deriving DecidableEq, Repr

/-- One run of fetchActivities, as a function of the prior UI state and the
fetch outcome. On the success path the list is cleared and rebuilt, the
select options are truncated to the placeholder and re-appended; in the
catch block the list innerHTML is replaced by the failure notice and the
error is logged, while the options are left untouched. -/
def fetchStep (st : CatalogUI) (o : CatalogFetchOutcome) : CatalogUI :=
  match o with
  | CatalogFetchOutcome.thrown =>
      { st with
        listArea := ListAreaContent.failureNotice failureHtml
        consoleErrors := st.consoleErrors + 1 }
  | CatalogFetchOutcome.response _ es =>
      { listArea := ListAreaContent.cards (renderEntries es)
      , options := st.options.take 1 ++ es.map (fun e => mkOption e.1)
      , consoleErrors := st.consoleErrors }

/-- A sequence of fetchActivities runs folded over the UI state. -/
def runFetches (st : CatalogUI) (os : List CatalogFetchOutcome) : CatalogUI :=
  os.foldl fetchStep st

/-- The page state before the first fetch: loading markup in the list,
only the placeholder option in the select. -/
def initUI : CatalogUI :=
  { listArea := ListAreaContent.loadingNotice
  , options := [mkOption ""]
  , consoleErrors := 0 }

/-- What the list container shows right after a fetch attempt with the given
outcome (used to characterize fetchStep). -/
def lastFetchView (o : CatalogFetchOutcome) : ListAreaContent :=
  match o with
  | CatalogFetchOutcome.thrown => ListAreaContent.failureNotice failureHtml
  | CatalogFetchOutcome.response _ es => ListAreaContent.cards (renderEntries es)

/-- A concrete catalog entry used for concrete evaluations. -/
def chessActivity : Activity :=
  { description := "Learn chess"
  , schedule := "Fridays"
  , max_participants := 10
  , participants := ["a@x.com"] }

/-- A one-entry catalog. -/
def chessEntries : List (String × Activity) := [("Chess Club", chessActivity)]

/-- State of the message div: textContent, the class set by the handlers
(className assignment replaces the whole class attribute, so it also drops
any "hidden" class), and whether the "hidden" class is present. -/
structure MessageState where
  text : String
  className : String
  hidden : Bool
deriving DecidableEq, Repr

/-- Outcome of a mutating request (signup POST, unregister DELETE) as
observed by the handler's await chain. `thrown` covers a rejected fetch
(network failure) and a body response.json() fails to parse: both reach the
catch block before response.ok is tested. `response ok message detail` is a
parsed JSON body, shaped per the server interface: the handlers read
result.message on the success branch and result.detail on the error
branch. -/
inductive MutationOutcome where
  | thrown
  | response (ok : Bool) (message : String) (detail : Option String)
deriving DecidableEq, Repr

/-- Whether the handler takes its response.ok branch. -/
def mutationOk : MutationOutcome → Bool
  | MutationOutcome.response true _ _ => true
  | _ => false

/-- Result of one run of handleDelete: the message state it leaves, whether
the DELETE request was issued, how many times fetchActivities was invoked,
and the durations of the setTimeout hide timers it armed. -/
structure DeleteResult where
  msg : MessageState
  remoteCalled : Bool
  fetchCalls : Nat
  timersArmed : List Nat
deriving DecidableEq, Repr

/-- handleDelete: aborts before any request if the confirm dialog is
declined; otherwise, on response.ok shows the success message, reloads the
catalog and arms a 3000 ms hide timer; on a non-ok response shows
result.detail (or the fallback) with no timer; in the catch block shows the
fixed error text with no timer. Every message-writing path ends with the
"hidden" class removed. -/
def handleDelete (confirmed : Bool) (o : MutationOutcome) (m : MessageState) :
    DeleteResult :=
  if !confirmed then
    { msg := m, remoteCalled := false, fetchCalls := 0, timersArmed := [] }
  else
    match o with
    | MutationOutcome.thrown =>
        { msg := { text := "Failed to unregister. Please try again."
                 , className := "error", hidden := false }
        , remoteCalled := true, fetchCalls := 0, timersArmed := [] }
    | MutationOutcome.response true message _ =>
        { msg := { text := message, className := "success", hidden := false }
        , remoteCalled := true, fetchCalls := 1, timersArmed := [3000] }
    | MutationOutcome.response false _ detail =>
        { msg := { text := detail.getD "Failed to unregister"
                 , className := "error", hidden := false }
        , remoteCalled := true, fetchCalls := 0, timersArmed := [] }

/-- Result of one run of the signup submit handler: message state, whether
signupForm.reset() ran, fetchActivities invocation count, and the armed
hide timers. -/
structure SignupResult where
  msg : MessageState
  formCleared : Bool
  fetchCalls : Nat
  timersArmed : List Nat
deriving DecidableEq, Repr

/-- The signup submit handler: on response.ok shows result.message, resets
the form and reloads the catalog; on a non-ok response shows result.detail
(or the fallback). In both of those paths the "hidden" class is removed and
a 5000 ms hide timer is armed (the setTimeout sits after the if/else inside
the try block). In the catch block the fixed error text is shown and the
"hidden" class removed, but no timer is armed. -/
def signupSubmit (o : MutationOutcome) : SignupResult :=
  match o with
  | MutationOutcome.thrown =>
      { msg := { text := "Failed to sign up. Please try again."
               , className := "error", hidden := false }
      , formCleared := false, fetchCalls := 0, timersArmed := [] }
  | MutationOutcome.response true message _ =>
      { msg := { text := message, className := "success", hidden := false }
      , formCleared := true, fetchCalls := 1, timersArmed := [5000] }
  | MutationOutcome.response false _ detail =>
      { msg := { text := detail.getD "An error occurred"
               , className := "error", hidden := false }
      , formCleared := false, fetchCalls := 0, timersArmed := [5000] }

/-- The message div content tagged with the index of the user action that
last wrote it (instrumentation for reasoning about timer interleavings; the
code itself keeps no such tag). -/
structure TaggedMessage where
  msg : MessageState
  owner : Nat
deriving DecidableEq, Repr

/-- A pending setTimeout callback: its absolute deadline and the index of
the action that armed it. The callback body only adds the "hidden" class;
it does not check which message is displayed. -/
structure PendingTimer where
  deadline : Nat
  owner : Nat
deriving DecidableEq, Repr

/-- Message div plus pending hide timers. -/
structure BoardState where
  message : TaggedMessage
  pending : List PendingTimer
deriving DecidableEq, Repr

/-- Fire every pending timer whose deadline has passed: each firing
unconditionally adds the "hidden" class to whatever message is displayed. -/
def fireDue (now : Nat) (st : BoardState) : BoardState :=
  let due := st.pending.filter (fun t => t.deadline ≤ now)
  let remaining := st.pending.filter (fun t => ¬ t.deadline ≤ now)
  if due.isEmpty then st
  else
    { message := { st.message with msg := { st.message.msg with hidden := true } }
    , pending := remaining }

/-- A timestamped completion of a user action on the message div, or a bare
passage of time. -/
inductive BoardEvent where
  | signupDone (id : Nat) (o : MutationOutcome)
  | deleteDone (id : Nat) (confirmed : Bool) (o : MutationOutcome)
  | idle
deriving Repr

/-- One step of the event loop: timers due at the event's timestamp fire
first, then the event's handler runs, tagging the message it writes and
converting each setTimeout duration into an absolute deadline. -/
def boardStep (st : BoardState) (ev : Nat × BoardEvent) : BoardState :=
  let st1 := fireDue ev.1 st
  match ev.2 with
  | BoardEvent.idle => st1
  | BoardEvent.signupDone id o =>
      let r := signupSubmit o
      { message := { msg := r.msg, owner := id }
      , pending := st1.pending ++
          r.timersArmed.map (fun d => { deadline := ev.1 + d, owner := id }) }
  | BoardEvent.deleteDone id c o =>
      let r := handleDelete c o st1.message.msg
      { message := if c then { msg := r.msg, owner := id } else st1.message
      , pending := st1.pending ++
          r.timersArmed.map (fun d => { deadline := ev.1 + d, owner := id }) }

/-- Run a timestamped event sequence from a board state. -/
def runBoard (st : BoardState) (evs : List (Nat × BoardEvent)) : BoardState :=
  evs.foldl boardStep st

/-- The message div before any action: empty, hidden. -/
def initBoard : BoardState :=
  { message := { msg := { text := "", className := "hidden", hidden := true }
               , owner := 0 }
  , pending := [] }

/-- Interleaving for the timer race: action 1 is a successful signup at
t = 0 (arms a hide timer for t = 5000), action 2 a successful unregister at
t = 3000 (writes its own message and arms a timer for t = 6000). -/
def raceEvents : List (Nat × BoardEvent) :=
  [ (0, BoardEvent.signupDone 1 (MutationOutcome.response true "Signed up!" none))
  , (3000, BoardEvent.deleteDone 2 true (MutationOutcome.response true "Removed!" none)) ]

/-- The same interleaving observed again at t = 5000, when action 1's timer
fires. -/
def raceEventsFired : List (Nat × BoardEvent) :=
  raceEvents ++ [(5000, BoardEvent.idle)]

/-- Claim C1: on the success path of fetchActivities, a catalog with N
entries yields exactly N cards in the list area and exactly N options
appended after the kept placeholder, both in the iteration order of the
mapping as received, with each card titled by its activity name and each
option's value and label equal to the activity name. -/
theorem claim_c1_render_counts_and_order (st : CatalogUI) (ok : Bool)
    (es : List (String × Activity)) :
    (fetchStep st (CatalogFetchOutcome.response ok es)).listArea
        = ListAreaContent.cards (renderEntries es)
    ∧ (renderEntries es).length = es.length
    ∧ (renderEntries es).map ActivityCard.title = es.map Prod.fst
    ∧ (fetchStep st (CatalogFetchOutcome.response ok es)).options
        = st.options.take 1 ++ es.map (fun e => mkOption e.1)
    ∧ (es.map (fun e => mkOption e.1)).length = es.length
    ∧ ∀ n : String, (mkOption n).value = n ∧ (mkOption n).textContent = n := by
  refine ⟨rfl, by simp [renderEntries], ?_, rfl, by simp, fun n => ⟨rfl, rfl⟩⟩
  simp [renderEntries, renderCard]

/-- Claim C2 fails on the code: a failed fetch after a successful one does
not leave the prior snapshot visible — the catch block overwrites the list
container with the failure notice. Concretely: a successful fetch of the
one-entry catalog renders its card, and a subsequent failed fetch replaces
the list with the notice, which differs from the rendered snapshot. -/
theorem claim_c2_counterexample :
    (runFetches initUI [CatalogFetchOutcome.response true chessEntries]).listArea
        = ListAreaContent.cards (renderEntries chessEntries)
    ∧ (runFetches initUI
        [CatalogFetchOutcome.response true chessEntries,
         CatalogFetchOutcome.thrown]).listArea
        = ListAreaContent.failureNotice failureHtml
    ∧ ListAreaContent.failureNotice failureHtml
        ≠ ListAreaContent.cards (renderEntries chessEntries) := by
  refine ⟨rfl, rfl, ?_⟩
  decide

/-- Claim C2 (amended): the list container reflects only the most recent
fetch attempt — a successful fetch displays exactly that snapshot, and a
failed fetch always displays the failure notice, discarding any previously
rendered snapshot. -/
theorem claim_c2_amended_last_fetch_wins (st : CatalogUI)
    (os : List CatalogFetchOutcome) (o : CatalogFetchOutcome) :
    (runFetches st (os ++ [o])).listArea = lastFetchView o := by
  have h : runFetches st (os ++ [o]) = fetchStep (runFetches st os) o := by
    simp [runFetches]
  rw [h]
  cases o <;> rfl

/-- Claim C3 fails on the code: fetchActivities never inspects the response
status, so a non-2xx response whose body parses as a JSON object is rendered
through the success path. Concretely: a response with ok = false carrying the
one-entry catalog renders one card, shows no failure notice, and logs no
error. -/
theorem claim_c3_counterexample :
    (fetchStep initUI (CatalogFetchOutcome.response false chessEntries)).listArea
        = ListAreaContent.cards (renderEntries chessEntries)
    ∧ (renderEntries chessEntries).length = 1
    ∧ (fetchStep initUI
        (CatalogFetchOutcome.response false chessEntries)).consoleErrors = 0 :=
  ⟨rfl, rfl, rfl⟩

/-- Claim C3 (amended): a catalog load is treated as failed — the list
container replaced by the static failure notice and the cause logged —
exactly when the request rejects or the body fails to parse as JSON; the
response status is never inspected, so any response whose body parses as a
JSON object (2xx or not) is rendered through the success path. -/
theorem claim_c3_amended_status_ignored (st : CatalogUI) (ok : Bool)
    (es : List (String × Activity)) :
    (fetchStep st CatalogFetchOutcome.thrown).listArea
        = ListAreaContent.failureNotice failureHtml
    ∧ (fetchStep st CatalogFetchOutcome.thrown).consoleErrors
        = st.consoleErrors + 1
    ∧ (fetchStep st (CatalogFetchOutcome.response ok es)).listArea
        = ListAreaContent.cards (renderEntries es)
    ∧ (fetchStep st (CatalogFetchOutcome.response ok es)).consoleErrors
        = st.consoleErrors :=
  ⟨rfl, rfl, rfl, rfl⟩

/-- Claim C4: a signup submission with a 2xx response clears the form and
invokes fetchActivities exactly once; a failed submission (non-2xx response
or a throw before the ok test) clears nothing and invokes no reload. -/
theorem claim_c4_signup_reset_and_reload (o : MutationOutcome) :
    (signupSubmit o).formCleared = mutationOk o
    ∧ (signupSubmit o).fetchCalls = (if mutationOk o then 1 else 0) := by
  cases o with
  | thrown => exact ⟨rfl, rfl⟩
  | response ok m d => cases ok <;> exact ⟨rfl, rfl⟩

/-- Claim C5: a rendered card's delete buttons are exactly one per
participant, in server order, each carrying the activity name and that
participant's email as data attributes; a card with no participants shows
the fixed placeholder text (and hence has zero delete buttons). -/
theorem claim_c5_participant_rows (n : String) (d : Activity) :
    (renderCard n d).deleteButtons
        = d.participants.map (fun email =>
            { className := "delete-btn", textLabel := "Delete"
            , dataActivity := n, dataEmail := email })
    ∧ (d.participants = [] →
        (renderCard n d).participantsArea
          = ParticipantsArea.placeholder noParticipantsText) := by
  constructor
  · cases h : d.participants with
    | nil => simp [renderCard, ActivityCard.deleteButtons, h]
    | cons a as =>
        simp [renderCard, ActivityCard.deleteButtons, h, List.map_map,
          Function.comp]
  · intro h
    simp [renderCard, h]

/-- A participant-free activity for concrete evaluation. -/
def emptyClub : Activity :=
  { description := "Painting"
  , schedule := "Mondays"
  , max_participants := 3
  , participants := [] }

/-- Witness for claim C5 at a concrete participant-free activity. -/
theorem claim_c5_participant_rows_witness :
    (renderCard "Art Club" emptyClub).participantsArea
        = ParticipantsArea.placeholder noParticipantsText
    ∧ (renderCard "Art Club" emptyClub).deleteButtons = [] :=
  ⟨(claim_c5_participant_rows "Art Club" emptyClub).2 rfl,
   (claim_c5_participant_rows "Art Club" emptyClub).1⟩

/-- Claim C6: the availability text node of every rendered card is the
computed spots-left value followed by the fixed " spots left" suffix (with
the separating space after the label), where the value is
max_participants minus the participant count, computed without clamping and
therefore negative whenever participants exceed capacity. -/
theorem claim_c6_spots_left_unclamped (n : String) (d : Activity) :
    (renderCard n d).availabilityText
        = " " ++ toString (spotsLeft d) ++ " spots left"
    ∧ spotsLeft d
        = (d.max_participants : Int) - (d.participants.length : Int)
    ∧ (d.max_participants < d.participants.length → spotsLeft d < 0) := by
  refine ⟨rfl, rfl, fun h => ?_⟩
  unfold spotsLeft
  omega

/-- An over-capacity activity for concrete evaluation. -/
def overfullClub : Activity :=
  { description := "Debate"
  , schedule := "Tuesdays"
  , max_participants := 1
  , participants := ["a@x.com", "b@x.com"] }

/-- Witness for claim C6 at a concrete over-capacity activity: the computed
value is negative and rendered as such. -/
theorem claim_c6_spots_left_unclamped_witness :
    overfullClub.max_participants < overfullClub.participants.length
    ∧ spotsLeft overfullClub < 0
    ∧ (renderCard "Debate Team" overfullClub).availabilityText
        = " -1 spots left" :=
  ⟨by decide,
   (claim_c6_spots_left_unclamped "Debate Team" overfullClub).2.2 (by decide),
   rfl⟩

/-- Claim C7: when the confirm dialog is declined, handleDelete returns
before issuing any request: no remote call, no catalog reload, no timer, and
the message state is returned exactly as it was. -/
theorem claim_c7_declined_confirm_is_noop (o : MutationOutcome)
    (m : MessageState) :
    handleDelete false o m
      = { msg := m, remoteCalled := false, fetchCalls := 0, timersArmed := [] } :=
  rfl

/-- Claim C8 fails on the code: on a signup whose fetch (or body parse)
throws, the catch block makes the error message visible but contains no
setTimeout, so no 5-second hide timer is armed. -/
theorem claim_c8_counterexample :
    (signupSubmit MutationOutcome.thrown).msg.hidden = false
    ∧ (signupSubmit MutationOutcome.thrown).timersArmed = [] :=
  ⟨rfl, rfl⟩

/-- Claim C8 (amended): every signup submission makes the message visible;
a 5-second hide timer is armed on success and on a server-reported (non-2xx)
failure, but a network failure (or unparseable body) arms no timer, because
the setTimeout sits inside the try block. -/
theorem claim_c8_amended_timer_not_on_throw (o : MutationOutcome) :
    (signupSubmit o).msg.hidden = false
    ∧ (signupSubmit o).timersArmed
        = (match o with
           | MutationOutcome.thrown => []
           | MutationOutcome.response _ _ _ => [5000]) := by
  cases o with
  | thrown => exact ⟨rfl, rfl⟩
  | response ok m d => cases ok <;> exact ⟨rfl, rfl⟩

/-- Claim C9: the concrete interleaving raceEvents — signup success at
t = 0, unregister success at t = 3000 — arms two hide timers (deadlines
5000 and 6000, owned by actions 1 and 2); at t = 3000 the displayed message
belongs to action 2 and is visible, and when action 1's timer fires at
t = 5000 it hides that message while action 2's own timer is still
pending: the earlier timer hides the later action's message. -/
theorem claim_c9_timer_race :
    (runBoard initBoard raceEvents).pending
        = [{ deadline := 5000, owner := 1 }, { deadline := 6000, owner := 2 }]
    ∧ (runBoard initBoard raceEvents).message.owner = 2
    ∧ (runBoard initBoard raceEvents).message.msg.hidden = false
    ∧ (runBoard initBoard raceEventsFired).message.owner = 2
    ∧ (runBoard initBoard raceEventsFired).message.msg.hidden = true
    ∧ (runBoard initBoard raceEventsFired).pending
        = [{ deadline := 6000, owner := 2 }] :=
  ⟨rfl, rfl, rfl, rfl, rfl, rfl⟩

/-- Claim C10: a confirmed unregister whose request fails (non-ok response
or throw) makes the error message visible and arms no hide timer, so
nothing schedules it to be hidden; only the success path arms a timer, of
3000 ms. -/
theorem claim_c10_unregister_error_no_timer (o : MutationOutcome)
    (m : MessageState) :
    (handleDelete true o m).msg.hidden = false
    ∧ (handleDelete true o m).timersArmed
        = (if mutationOk o then [3000] else [])
    ∧ (handleDelete true o m).msg.className
        = (if mutationOk o then "success" else "error") := by
  cases o with
  | thrown => exact ⟨rfl, rfl, rfl⟩
  | response ok msg d => cases ok <;> exact ⟨rfl, rfl, rfl⟩
